import Mathlib

/-!
Verification of the matching engine of the proyectopp8 repository.

The repository contains three Python files sharing one engine:
`matching_streamlit.py` (Streamlit UI), `main.py` (FastAPI endpoint
`/match-jobs/`) and `inicio.py` (profile page with its own
`verificar_compatibilidad`).  This file embeds the engine shallowly:
Python strings become `String`, Python sets become `Finset String`,
Python floats become `ℚ` (exact idealisation of the float formulas;
floating-point representation error itself is not modelled), and code
that can raise becomes `Except String`.
-/

/-! ## Python string primitives

The engine relies on three Python primitives: `str.lower`, `str.strip`
and the substring test `needle in hay`.  They are modelled over
`String.data : List Char`.
-/

/-- The characters Python's `str.isspace`/`str.strip` treats as ASCII
whitespace: space, tab, newline, carriage return, vertical tab, form feed. -/
def pyEspacios : List Char := [' ', '\t', '\n', '\x0d', '\x0b', '\x0c']

/-- Test for the whitespace characters stripped by Python `str.strip`. -/
def pyIsSpace (c : Char) : Bool := pyEspacios.contains c

/-- Uppercase-to-lowercase table of Python `str.lower`, restricted to the
alphabet that occurs in the repository's data: the 26 ASCII letters plus
the accented Spanish capitals.  On every other character `str.lower` is
the identity for this alphabet. -/
def minusculas : List (Char × Char) :=
  [('A', 'a'), ('B', 'b'), ('C', 'c'), ('D', 'd'), ('E', 'e'), ('F', 'f'),
   ('G', 'g'), ('H', 'h'), ('I', 'i'), ('J', 'j'), ('K', 'k'), ('L', 'l'),
   ('M', 'm'), ('N', 'n'), ('O', 'o'), ('P', 'p'), ('Q', 'q'), ('R', 'r'),
   ('S', 's'), ('T', 't'), ('U', 'u'), ('V', 'v'), ('W', 'w'), ('X', 'x'),
   ('Y', 'y'), ('Z', 'z'),
   ('Á', 'á'), ('É', 'é'), ('Í', 'í'), ('Ó', 'ó'), ('Ú', 'ú'),
   ('Ñ', 'ñ'), ('Ü', 'ü')]

/-- Python `str.lower` on one character (for the modelled alphabet). -/
def pyLowerChar (c : Char) : Char :=
  match minusculas.find? (fun p => p.1 == c) with
  | some p => p.2
  | none => c

/-- Python `str.lower`. -/
def pyLower (s : String) : String := ⟨s.data.map pyLowerChar⟩

/-- Character-list core of Python `str.strip`: drop whitespace from both ends. -/
def stripData (l : List Char) : List Char :=
  (l.dropWhile pyIsSpace).rdropWhile pyIsSpace

/-- Python `str.strip`. -/
def pyStrip (s : String) : String := ⟨stripData s.data⟩

/-- Model of Python's `needle in hay` on character
lists: `needle` occurs contiguously inside `hay` (the empty needle is in
everything, as in Python). -/
def containsSub (needle : List Char) : List Char → Bool
  | [] => needle.isEmpty
  | c :: resto => needle.isPrefixOf (c :: resto) || containsSub needle resto

/-- Python's `needle in hay` on strings. -/
def strContains (hay needle : String) : Bool := containsSub needle.data hay.data

/-! ## Skill normaliser (`normalizar_habilidad`)

From `matching_streamlit.py` lines 18-30 (textually identical in
`main.py` lines 64-82 and `inicio.py` lines 301-313).
-/

/-- The fixed ordered keyword list `terminos_clave` of the source. -/
def terminos_clave : List String :=
  ["python", "sql", "excel", "javascript", "node.js", "google ads", "seo",
   "docker", "liderazgo"]

/-- The source's `for termino in terminos_clave: if termino in habilidad:
return termino` loop: first keyword of `l` contained in `habilidad`. -/
def buscar_termino (l : List String) (habilidad : String) : Option String :=
  match l with
  | [] => none
  | termino :: resto =>
    if strContains habilidad termino then some termino
    else buscar_termino resto habilidad

/-- Function `normalizar_habilidad` from the source: lowercase and strip, then the
ordered synonym rules, then the keyword scan, else the cleaned string. -/
def normalizar_habilidad (habilidad : String) : String :=
  let h := pyStrip (pyLower habilidad)
  if strContains h "estadistica" then "estadística"
  else if strContains h "trabajo en equipo" || strContains h "equipo" then
    "trabajo en equipo"
  else if strContains h "resolución" && strContains h "problemas" then
    "resolución de problemas"
  else
    match buscar_termino terminos_clave h with
    | some termino => termino
    | none => h

/-! ## Skill extractor (`extraer_habilidades`)

From `matching_streamlit.py` lines 32-39 (same in `main.py` 84-94):
normalise every known skill, normalise the whole résumé blob through the
same function, keep the normalised skills contained in the blob.
-/

/-- Function `extraer_habilidades` from the source.  The Python function builds a
set; the model returns the corresponding `Finset`. -/
def extraer_habilidades (cv_texto : String)
    (lista_habilidades_conocidas : Finset String) : Finset String :=
  let cv_texto_limpio := normalizar_habilidad cv_texto
  (lista_habilidades_conocidas.image normalizar_habilidad).filter
    (fun habilidad => strContains cv_texto_limpio habilidad = true)

/-! ## Data model

`matching_streamlit.py` postings are dicts with list-valued requirement
keys; `main.py` postings are CSV rows with comma-separated requirement
strings.  Courses are the same shape in both.
-/

/-- A posting as consumed by `matching_streamlit.py` (keys `id`, `titulo`,
`empresa`, `descripcion`, `requisitos_tecnicos`, `requisitos_blandos`). -/
structure Vacante where
  id : Nat
  titulo : String
  empresa : String
  descripcion : String
  requisitos_tecnicos : List String
  requisitos_blandos : List String
deriving DecidableEq, Repr

/-- A posting as consumed by `main.py` (CSV columns; the requirement
lists are comma-separated strings). -/
structure Oferta where
  ID_Oferta : Nat
  Puesto : String
  Empresa : String
  Descripcion_Puesto : String
  Req_Hard_Skills : String
  Req_Soft_Skills : String
deriving DecidableEq, Repr

/-- A course record (keys `habilidad`, `titulo_curso`, `proveedor`). -/
structure Curso where
  habilidad : String
  titulo_curso : String
  proveedor : String
deriving DecidableEq, Repr

/-- One entry of the ranked output, generic in the posting type `α`
(dict in `matching_streamlit.py`, CSV row in `main.py`).  The Python code
stores `habilidades_cumplidas`/`habilidades_faltantes` as lists obtained
from sets in unspecified order; the model keeps the sets. -/
structure ResultadoMatch (α : Type) where
  vacante : α
  puntaje_match : ℚ
  habilidades_cumplidas : Finset String
  habilidades_faltantes : Finset String
  cursos_recomendados : List Curso
deriving DecidableEq

/-! ## Similarity scorer (`calcular_similitud_tfidf`)

The source builds the corpus `[cv_texto] + descriptions`, fits sklearn's
`TfidfVectorizer(stop_words='english', lowercase=True)` and takes cosine
similarities of the first row against the rest.  Two sklearn behaviours
are part of the model because the source does nothing to guard them:

* `fit_transform` raises `ValueError: empty vocabulary` when no document
  contributes a token after stop-word removal;
* `cosine_similarity(X, Y)` raises `ValueError: Found array with 0
  sample(s)` when `Y` has no rows, i.e. when the posting list is empty.

The numeric cosine values themselves are computed by sklearn in floating
point and are not modelled; they enter as the kernel parameter `cos`
(given the corpus and a description, its similarity to the résumé).
Every theorem below holds for all kernels.
-/

/-- sklearn's frozen `ENGLISH_STOP_WORDS` list.  Its exact membership is
irrelevant to the theorems below, which only use empty documents or the
tokens `python`/`sql`/`hola` (in no English stop list). -/
def english_stop_words : List String :=
  ["a", "about", "above", "across", "after", "afterwards", "again",
   "against", "all", "almost", "alone", "along", "already", "also",
   "although", "always", "am", "among", "amongst", "amoungst", "amount",
   "an", "and", "another", "any", "anyhow", "anyone", "anything",
   "anyway", "anywhere", "are", "around", "as", "at", "back", "be",
   "became", "because", "become", "becomes", "becoming", "been",
   "before", "beforehand", "behind", "being", "below", "beside",
   "besides", "between", "beyond", "bill", "both", "bottom", "but",
   "by", "call", "can", "cannot", "cant", "co", "con", "could",
   "couldnt", "cry", "de", "describe", "detail", "do", "done", "down",
   "due", "during", "each", "eg", "eight", "either", "eleven", "else",
   "elsewhere", "empty", "enough", "etc", "even", "ever", "every",
   "everyone", "everything", "everywhere", "except", "few", "fifteen",
   "fifty", "fill", "find", "fire", "first", "five", "for", "former",
   "formerly", "forty", "found", "four", "from", "front", "full",
   "further", "get", "give", "go", "had", "has", "hasnt", "have", "he",
   "hence", "her", "here", "hereafter", "hereby", "herein", "hereupon",
   "hers", "herself", "him", "himself", "his", "how", "however",
   "hundred", "i", "ie", "if", "in", "inc", "indeed", "interest",
   "into", "is", "it", "its", "itself", "keep", "last", "latter",
   "latterly", "least", "less", "ltd", "made", "many", "may", "me",
   "meanwhile", "might", "mill", "mine", "more", "moreover", "most",
   "mostly", "move", "much", "must", "my", "myself", "name", "namely",
   "neither", "never", "nevertheless", "next", "nine", "no", "nobody",
   "none", "noone", "nor", "not", "nothing", "now", "nowhere", "of",
   "off", "often", "on", "once", "one", "only", "onto", "or", "other",
   "others", "otherwise", "our", "ours", "ourselves", "out", "over",
   "own", "part", "per", "perhaps", "please", "put", "rather", "re",
   "same", "see", "seem", "seemed", "seeming", "seems", "serious",
   "several", "she", "should", "show", "side", "since", "sincere",
   "six", "sixty", "so", "some", "somehow", "someone", "something",
   "sometime", "sometimes", "somewhere", "still", "such", "system",
   "take", "ten", "than", "that", "the", "their", "them", "themselves",
   "then", "thence", "there", "thereafter", "thereby", "therefore",
   "therein", "thereupon", "these", "they", "thick", "thin", "third",
   "this", "those", "though", "three", "through", "throughout", "thru",
   "thus", "to", "together", "too", "top", "toward", "towards",
   "twelve", "twenty", "two", "un", "under", "until", "up", "upon",
   "us", "very", "via", "was", "we", "well", "were", "what", "whatever",
   "when", "whence", "whenever", "where", "whereafter", "whereas",
   "whereby", "wherein", "whereupon", "wherever", "whether", "which",
   "while", "whither", "who", "whoever", "whole", "whom", "whose",
   "why", "will", "with", "within", "without", "would", "yet", "you",
   "your", "yours", "yourself", "yourselves"]

/-- A character matched by `\w` in the vectorizer's token pattern
`(?u)\b\w\w+\b`, for the modelled alphabet: ASCII alphanumerics,
underscore and the accented Spanish letters. -/
def esCaracterPalabra (c : Char) : Bool :=
  c.isAlphanum || c = '_' ||
    ['á', 'é', 'í', 'ó', 'ú', 'ñ', 'ü', 'Á', 'É', 'Í', 'Ó', 'Ú', 'Ñ', 'Ü'].contains c

/-- Split a character list into its maximal runs of word characters
(`palabra` accumulates the current run, reversed). -/
def agruparPalabrasAux (palabra : List Char) : List Char → List (List Char)
  | [] => if palabra.isEmpty then [] else [palabra.reverse]
  | c :: resto =>
    if esCaracterPalabra c then agruparPalabrasAux (c :: palabra) resto
    else if palabra.isEmpty then agruparPalabrasAux [] resto
    else palabra.reverse :: agruparPalabrasAux [] resto

/-- The tokens the vectorizer extracts from one document: lowercase the
document, take maximal word-character runs, keep those of length ≥ 2
(the token pattern `\b\w\w+\b`). -/
def tfidf_tokens (doc : String) : List String :=
  ((agruparPalabrasAux [] (pyLower doc).data).filter
    (fun palabra => 2 ≤ palabra.length)).map (fun palabra => ⟨palabra⟩)

/-- The vocabulary `TfidfVectorizer.fit` builds over a corpus: all tokens
of all documents, minus English stop words, deduplicated. -/
def build_vocabulary (documentos : List String) : List String :=
  ((documentos.flatMap tfidf_tokens).filter
    (fun token => !english_stop_words.contains token)).dedup

/-- Function `calcular_similitud_tfidf` from the source, generic in the posting
type: `descripcion`/`ident` are the two field accesses the two variants
use (`v['descripcion']`/`v['id']` in `matching_streamlit.py`,
`v.get('Descripcion_Puesto','')`/`v['ID_Oferta']` in `main.py`).  The
result keys each posting id to its cosine score, as the Python dict
does; `cos` is the unmodelled floating-point cosine kernel. -/
def calcular_similitud_tfidf {α : Type} (cos : List String → String → ℚ)
    (descripcion : α → String) (ident : α → Nat)
    (cv_texto : String) (vacantes : List α) : Except String (List (Nat × ℚ)) :=
  let documentos := cv_texto :: vacantes.map descripcion
  if build_vocabulary documentos = [] then
    Except.error "ValueError: empty vocabulary; perhaps the documents only contain stop words"
  else if vacantes.isEmpty then
    Except.error "ValueError: Found array with 0 sample(s) while a minimum of 1 is required"
  else
    Except.ok (vacantes.map (fun v => (ident v, cos documentos (descripcion v))))

/-! ## Match ranker

Per-posting scoring from `matching_streamlit.py` lines 70-90 and
`main.py` lines 142-167, and the final stable descending sort.
-/

/-- Round half to even at integer precision (Python's `round`). -/
def round_half_even (x : ℚ) : ℤ :=
  if x - ⌊x⌋ < 1 / 2 then ⌊x⌋
  else if 1 / 2 < x - ⌊x⌋ then ⌊x⌋ + 1
  else if ⌊x⌋ % 2 = 0 then ⌊x⌋ else ⌊x⌋ + 1

/-- Python's `round(x, 2)` (idealised over `ℚ`): round half to even at
two decimal places. -/
def pyRound2 (x : ℚ) : ℚ := (round_half_even (x * 100) : ℚ) / 100

/-- Set `req_totales` of a `matching_streamlit.py` posting: union of the
normalised technical and soft requirement lists. -/
def req_totales (vacante : Vacante) : Finset String :=
  (vacante.requisitos_tecnicos.map normalizar_habilidad).toFinset ∪
    (vacante.requisitos_blandos.map normalizar_habilidad).toFinset

/-- Set `habilidades_faltantes`: required skills the candidate lacks. -/
def habilidades_faltantes (habilidades_cv : Finset String) (vacante : Vacante) :
    Finset String :=
  req_totales vacante \ habilidades_cv

/-- Coverage `score_cumplimiento`: fraction of required skills covered,
`len(habilidades_cumplidas) / total_req if total_req else 0`. -/
def score_cumplimiento (habilidades_cv : Finset String) (vacante : Vacante) : ℚ :=
  if (req_totales vacante).card ≠ 0 then
    ((habilidades_cv ∩ req_totales vacante).card : ℚ) / ((req_totales vacante).card : ℚ)
  else 0

/-- The body of the `for vacante in VACANTES` loop of
`matching_streamlit.py`: one `ResultadoMatch` per posting. -/
def procesar_vacante (cursos : List Curso) (habilidades_cv : Finset String)
    (tfidf_scores : List (Nat × ℚ)) (vacante : Vacante) : ResultadoMatch Vacante :=
  let habilidades_cumplidas := habilidades_cv ∩ req_totales vacante
  let score_relevancia : ℚ := (tfidf_scores.lookup vacante.id).getD 0
  let puntaje_final : ℚ :=
    score_cumplimiento habilidades_cv vacante * (6 / 10) + score_relevancia * (4 / 10)
  { vacante := vacante
    puntaje_match := pyRound2 (puntaje_final * 100)
    habilidades_cumplidas := habilidades_cumplidas
    habilidades_faltantes := habilidades_faltantes habilidades_cv vacante
    cursos_recomendados := cursos.filter
      (fun curso => normalizar_habilidad curso.habilidad ∈ habilidades_faltantes habilidades_cv vacante) }

/-- Model of `sorted(resultados, key=lambda x: x['puntaje_match'], reverse=True)`:
stable descending sort on the rounded score. -/
def resultados_ordenados {α : Type} (resultados : List (ResultadoMatch α)) :
    List (ResultadoMatch α) :=
  resultados.mergeSort (fun a b => decide (b.puntaje_match ≤ a.puntaje_match))

/-- The `Analizar y Recomendar` button handler of `matching_streamlit.py`
(lines 59-91) as a function of its inputs.  `Except.error` stands both
for the `st.error` validation message and for an uncaught sklearn
`ValueError`. -/
def analizar_y_recomendar (cos : List String → String → ℚ) (cv_texto : String)
    (vacantes : List Vacante) (cursos : List Curso) :
    Except String (List (ResultadoMatch Vacante)) :=
  if pyStrip cv_texto = "" then Except.error "Debes ingresar el texto de tu CV."
  else
    let todas_habilidades : Finset String :=
      (vacantes.flatMap (fun v => v.requisitos_tecnicos ++ v.requisitos_blandos)).toFinset
    let habilidades_cv := extraer_habilidades cv_texto todas_habilidades
    match calcular_similitud_tfidf cos (fun v => v.descripcion) (fun v => v.id)
        cv_texto vacantes with
    | Except.error e => Except.error e
    | Except.ok tfidf_scores =>
      Except.ok (resultados_ordenados
        (vacantes.map (procesar_vacante cursos habilidades_cv tfidf_scores)))

/-- Per-posting loop body of `main.py` (lines 142-167); identical scoring
over comma-split requirement strings. -/
def procesar_oferta (cursos : List Curso) (habilidades_cv : Finset String)
    (tfidf_scores : List (Nat × ℚ)) (vacante : Oferta) : ResultadoMatch Oferta :=
  let req_tec := ((vacante.Req_Hard_Skills.splitOn ",").map normalizar_habilidad).toFinset
  let req_blando := ((vacante.Req_Soft_Skills.splitOn ",").map normalizar_habilidad).toFinset
  let req_tot := req_tec ∪ req_blando
  let habilidades_cumplidas := habilidades_cv ∩ req_tot
  let faltantes := req_tot \ habilidades_cv
  let score_c : ℚ :=
    if req_tot.card ≠ 0 then (habilidades_cumplidas.card : ℚ) / (req_tot.card : ℚ) else 0
  let score_relevancia : ℚ := (tfidf_scores.lookup vacante.ID_Oferta).getD 0
  let puntaje_final : ℚ := score_c * (6 / 10) + score_relevancia * (4 / 10)
  { vacante := vacante
    puntaje_match := pyRound2 (puntaje_final * 100)
    habilidades_cumplidas := habilidades_cumplidas
    habilidades_faltantes := faltantes
    cursos_recomendados := cursos.filter
      (fun curso => normalizar_habilidad curso.habilidad ∈ faltantes) }

/-- The `/match-jobs/` endpoint `encontrar_trabajos_compatibles` of
`main.py`: reject empty résumés (HTTP 400), return `[]` on an empty
catalog before touching the vectorizer, otherwise extract, score, rank. -/
def encontrar_trabajos_compatibles (cos : List String → String → ℚ)
    (cv_texto : String) (vacantes : List Oferta) (cursos : List Curso) :
    Except String (List (ResultadoMatch Oferta)) :=
  if pyStrip cv_texto = "" then
    Except.error "HTTP 400: El cv_texto no puede estar vacío."
  else if vacantes = [] then Except.ok []
  else
    let todas_habilidades : Finset String :=
      (vacantes.flatMap (fun v =>
        (v.Req_Hard_Skills.splitOn ",").map pyStrip ++
          (v.Req_Soft_Skills.splitOn ",").map pyStrip)).toFinset
    let habilidades_cv := extraer_habilidades cv_texto todas_habilidades
    match calcular_similitud_tfidf cos (fun v => v.Descripcion_Puesto)
        (fun v => v.ID_Oferta) cv_texto vacantes with
    | Except.error e => Except.error e
    | Except.ok tfidf_scores =>
      Except.ok (resultados_ordenados
        (vacantes.map (procesar_oferta cursos habilidades_cv tfidf_scores)))

/-! ## `inicio.py`: profile data model and `verificar_compatibilidad` -/

/-- Dataclass `OfertaDeTrabajo` of `inicio.py`. -/
structure OfertaDeTrabajo where
  puesto : String
  empresa : String
  habilidades_requeridas : List String
  experiencia_minima_meses : Int
deriving DecidableEq, Repr

/-- Dataclass `PerfilCandidato` of `inicio.py` (the `experiencias` field,
date arithmetic only, plays no part in `verificar_compatibilidad` and is
not modelled). -/
structure PerfilCandidato where
  nombre : String
  email : String
  telefono : Option String
  resumen_profesional : String
  habilidades : List String
deriving DecidableEq, Repr

/-- Method `PerfilCandidato.get_habilidades_normalizadas`: lowercase only. -/
def get_habilidades_normalizadas (perfil : PerfilCandidato) : List String :=
  perfil.habilidades.map pyLower

/-- Function `verificar_compatibilidad` of `inicio.py` lines 155-164: lowercase
both sides, intersect, and score `int(|matched| / len(required) * 100)` —
except that an offer with an empty requirement list scores 100.
`int()` on the nonnegative score is the floor. -/
def verificar_compatibilidad (perfil : PerfilCandidato) (oferta : OfertaDeTrabajo) :
    Int × Finset String × Finset String :=
  let habilidades_candidato := (get_habilidades_normalizadas perfil).toFinset
  let habilidades_oferta := oferta.habilidades_requeridas.map pyLower
  let coincidentes := habilidades_candidato ∩ habilidades_oferta.toFinset
  let faltantes := habilidades_oferta.toFinset \ habilidades_candidato
  let score : ℚ :=
    if habilidades_oferta ≠ [] then
      (coincidentes.card : ℚ) / (habilidades_oferta.length : ℚ) * 100
    else 100
  (⌊score⌋, coincidentes, faltantes)

/-- Restatement of the normalisation algorithm in the words of the spec
(section 4.1) and claim C5: ordered rules, first match wins, the keyword
step as `List.find?` over the fixed ordered list, else the cleaned
string unchanged.  Compared against the source embedding
`normalizar_habilidad` below. -/
def normalize_spec (raw : String) : String :=
  let cleaned := pyStrip (pyLower raw)
  if strContains cleaned "estadistica" = true then "estadística"
  else if strContains cleaned "trabajo en equipo" = true ∨ strContains cleaned "equipo" = true then
    "trabajo en equipo"
  else if strContains cleaned "resolución" = true ∧ strContains cleaned "problemas" = true then
    "resolución de problemas"
  else (terminos_clave.find? (fun termino => strContains cleaned termino)).getD cleaned

/-! ## Behaviour of the normaliser and extractor on samples -/

example : normalizar_habilidad "  Node.JS avanzado " = "node.js" := by decide
example : normalizar_habilidad "Estadística aplicada" = "estadística aplicada" := by decide
example : normalizar_habilidad "conocimientos de ESTADISTICA" = "estadística" := by decide
example : normalizar_habilidad "Trabajo en Equipo" = "trabajo en equipo" := by decide
example : normalizar_habilidad "comunicación" = "comunicación" := by decide
example : extraer_habilidades "Tengo experiencia en Python y trabajo en equipo"
    {"Python", "Trabajo en equipo", "SQL"} = {"trabajo en equipo"} := by decide
example : extraer_habilidades "Tengo experiencia en Python y SQL"
    {"Python", "SQL"} = {"python"} := by decide
example : extraer_habilidades "Domino la comunicación y la oratoria"
    {"Comunicación", "Oratoria"} = {"comunicación", "oratoria"} := by decide
example : extraer_habilidades "Experto en Python, SQL y estadistica"
    {"Python", "SQL", "estadistica"} = {"estadística"} := by decide

/-! ## Idempotence of the cleaning primitives

These lemmas support claims C5 and C10: cleaning (`lower` then `strip`)
is idempotent, and every canonical output of `normalizar_habilidad` is a
fixed point of it.
-/

/-- In the lowercase table no value is itself a key: lowering is
idempotent character by character. -/
theorem minusculas_valores_no_claves :
    ∀ p ∈ minusculas, minusculas.find? (fun q => q.1 == p.2) = none := by decide

theorem pyLowerChar_idem (c : Char) : pyLowerChar (pyLowerChar c) = pyLowerChar c := by
  cases h : minusculas.find? (fun p => p.1 == c) with
  | none =>
    have h1 : pyLowerChar c = c := by unfold pyLowerChar; rw [h]
    rw [h1]
    exact h1
  | some p =>
    have h1 : pyLowerChar c = p.2 := by unfold pyLowerChar; rw [h]
    have h2 : minusculas.find? (fun q => q.1 == p.2) = none :=
      minusculas_valores_no_claves p (List.mem_of_find?_eq_some h)
    rw [h1]
    unfold pyLowerChar
    rw [h2]

/-- Characters surviving `stripData` come from the original list. -/
theorem mem_of_mem_stripData {l : List Char} {a : Char} (h : a ∈ stripData l) :
    a ∈ l := by
  unfold stripData at h
  have h1 : (l.dropWhile pyIsSpace).rdropWhile pyIsSpace <+: l.dropWhile pyIsSpace :=
    List.rdropWhile_prefix _ _
  exact (List.dropWhile_sublist pyIsSpace).subset (h1.sublist.subset h)

/-- A list whose elements are all fixed by `f` is fixed by `List.map f`. -/
theorem map_eq_self_of_mem {f : Char → Char} :
    ∀ {l : List Char}, (∀ a ∈ l, f a = a) → l.map f = l
  | [], _ => rfl
  | a :: resto, h => by
    rw [List.map_cons, h a (List.mem_cons_self a resto),
      map_eq_self_of_mem (fun b hb => h b (List.mem_cons_of_mem a hb))]

/-- A prefix of a list that `dropWhile` leaves unchanged is itself
unchanged by `dropWhile`. -/
theorem dropWhile_eq_self_de_prefijo {p : Char → Bool} :
    ∀ {v u : List Char}, v <+: u → u.dropWhile p = u → v.dropWhile p = v
  | [], _, _, _ => rfl
  | a :: v, u, hpre, hu => by
    obtain ⟨t, ht⟩ := hpre
    subst ht
    rw [List.cons_append, List.dropWhile_cons] at hu
    rw [List.dropWhile_cons]
    by_cases hp : p a = true
    · exfalso
      rw [if_pos hp] at hu
      have hle := (List.dropWhile_sublist (l := v ++ t) p).length_le
      rw [hu, List.length_cons] at hle
      omega
    · rw [if_neg hp]

theorem stripData_idem (l : List Char) : stripData (stripData l) = stripData l := by
  unfold stripData
  rw [dropWhile_eq_self_de_prefijo ( List.rdropWhile_prefix _ _)
    (List.dropWhile_idempotent _ _), List.rdropWhile_idempotent]

/-- Lowering a stripped lowered string changes nothing. -/
theorem pyLower_pyStrip_pyLower (s : String) :
    pyLower (pyStrip (pyLower s)) = pyStrip (pyLower s) := by
  unfold pyLower pyStrip
  apply congrArg String.mk
  apply map_eq_self_of_mem
  intro a ha
  have hmem : a ∈ (s.data.map pyLowerChar) := mem_of_mem_stripData ha
  obtain ⟨x, _, hx⟩ := List.mem_map.mp hmem
  rw [← hx, pyLowerChar_idem]

/-- Cleaning (`lower` then `strip`) is idempotent. -/
theorem limpiar_idem (s : String) :
    pyStrip (pyLower (pyStrip (pyLower s))) = pyStrip (pyLower s) := by
  rw [pyLower_pyStrip_pyLower]
  show String.mk (stripData (stripData (pyLower s).data)) = _
  rw [stripData_idem]
  rfl

/-! ## Lemmas on the keyword loop -/

/-- The keyword loop only returns members of its list. -/
theorem buscar_termino_mem {l : List String} {h t : String}
    (hb : buscar_termino l h = some t) : t ∈ l := by
  induction l with
  | nil => simp [buscar_termino] at hb
  | cons a resto ih =>
    rw [buscar_termino] at hb
    by_cases hc : strContains h a = true
    · rw [if_pos hc] at hb
      injection hb with hab
      subst hab
      exact List.mem_cons_self a resto
    · rw [if_neg hc] at hb
      exact List.mem_cons_of_mem a (ih hb)

/-- The keyword loop is `List.find?` over the keyword list. -/
theorem buscar_termino_eq_find (l : List String) (h : String) :
    buscar_termino l h = l.find? (fun termino => strContains h termino) := by
  induction l with
  | nil => rfl
  | cons a resto ih =>
    rw [buscar_termino]
    by_cases hc : strContains h a = true
    · rw [if_pos hc, List.find?_cons_of_pos _ hc]
    · rw [if_neg hc, List.find?_cons_of_neg _ (by simp [hc]), ih]

/-- Every keyword of `terminos_clave` is a fixed point of the normaliser. -/
theorem normalizar_fijo_terminos :
    ∀ t ∈ terminos_clave, normalizar_habilidad t = t := by decide

/-! ## Claims C5 and C10: the normaliser -/

/-- C5: for every raw skill string, the normaliser applies its rules in
the fixed order stated by the spec with first match winning: lowercase
and trim; `estadística` on an `estadistica` marker; `trabajo en equipo`
on a teamwork marker; `resolución de problemas` on both resolution and
problems markers; else the first member of the ordered keyword list
contained as a substring; otherwise the cleaned string unchanged. -/
theorem c5_normalizar_sigue_el_orden_del_spec (s : String) :
    normalizar_habilidad s = normalize_spec s := by
  unfold normalizar_habilidad normalize_spec
  by_cases h1 : strContains (pyStrip (pyLower s)) "estadistica" = true
  · simp [h1]
  · by_cases h2a : strContains (pyStrip (pyLower s)) "trabajo en equipo" = true
    · simp [h1, h2a]
    · by_cases h2b : strContains (pyStrip (pyLower s)) "equipo" = true
      · simp [h1, h2a, h2b]
      · by_cases h3a : strContains (pyStrip (pyLower s)) "resolución" = true
        <;> by_cases h3b : strContains (pyStrip (pyLower s)) "problemas" = true
        <;> simp [h1, h2a, h2b, h3a, h3b, buscar_termino_eq_find, Option.getD]
        <;> cases hf : terminos_clave.find? (fun t => strContains (pyStrip (pyLower s)) t)
        <;> simp [hf]

/-- C10: the normaliser is idempotent — every value it can return
(`estadística`, `trabajo en equipo`, `resolución de problemas`, each
keyword, and the cleaned fallback string) is a fixed point of it. -/
theorem c10_normalizar_idempotente (s : String) :
    normalizar_habilidad (normalizar_habilidad s) = normalizar_habilidad s := by
  by_cases h1 : strContains (pyStrip (pyLower s)) "estadistica" = true
  · have hs : normalizar_habilidad s = "estadística" := by
      unfold normalizar_habilidad; simp [h1]
    rw [hs]; decide
  · by_cases h2 : (strContains (pyStrip (pyLower s)) "trabajo en equipo" ||
        strContains (pyStrip (pyLower s)) "equipo") = true
    · have hs : normalizar_habilidad s = "trabajo en equipo" := by
        unfold normalizar_habilidad; simp only [h1]; simp [h2]
      rw [hs]; decide
    · by_cases h3 : (strContains (pyStrip (pyLower s)) "resolución" &&
          strContains (pyStrip (pyLower s)) "problemas") = true
      · have hs : normalizar_habilidad s = "resolución de problemas" := by
          unfold normalizar_habilidad; simp only [h1, h2]; simp [h1, h2, h3]
        rw [hs]; decide
      · cases hb : buscar_termino terminos_clave (pyStrip (pyLower s)) with
        | some t =>
          have hs : normalizar_habilidad s = t := by
            unfold normalizar_habilidad; simp [h1, h2, h3, hb]
          rw [hs]
          exact normalizar_fijo_terminos t (buscar_termino_mem hb)
        | none =>
          have hs : normalizar_habilidad s = pyStrip (pyLower s) := by
            unfold normalizar_habilidad; simp [h1, h2, h3, hb]
          rw [hs]
          unfold normalizar_habilidad
          simp only [limpiar_idem]
          simp [h1, h2, h3, hb]

/-! ## Claim C2: the whole-blob normalisation collapse -/

/-- C2: when the cleaned résumé text contains `estadistica`, the whole
blob used for scanning is replaced by the single term `estadística`, so
every skill that `extraer_habilidades` returns is a substring of
`estadística` — whatever other known skills the résumé mentions. -/
theorem c2_estadistica_absorbe_el_cv (cv_texto : String) (conocidas : Finset String)
    (h : strContains (pyStrip (pyLower cv_texto)) "estadistica" = true) :
    ∀ s ∈ extraer_habilidades cv_texto conocidas, strContains "estadística" s = true := by
  intro s hs
  have hcv : normalizar_habilidad cv_texto = "estadística" := by
    unfold normalizar_habilidad; simp [h]
  unfold extraer_habilidades at hs
  rw [hcv] at hs
  exact (Finset.mem_filter.mp hs).2

theorem c2_estadistica_absorbe_el_cv_witness :
    strContains (pyStrip (pyLower "Experto en Python, SQL y estadistica")) "estadistica" = true ∧
    ∀ s ∈ extraer_habilidades "Experto en Python, SQL y estadistica" {"Python", "SQL", "estadistica"},
      strContains "estadística" s = true :=
  ⟨by decide, c2_estadistica_absorbe_el_cv "Experto en Python, SQL y estadistica"
    {"Python", "SQL", "estadistica"} (by decide)⟩

/-! ## Claims C1 and C7: per-posting scoring -/

/-- C1: for every posting processed by the ranker, the coverage score is
`|matched| / |required|` on a non-empty normalised requirement set and
`0` on an empty one, and the reported match score is
`(coverage * 0.6 + relevance * 0.4) * 100` rounded to two decimal
places, where the relevance is the posting's similarity score, or `0`
when its id is absent from the similarity mapping. -/
theorem c1_formula_del_puntaje (cursos : List Curso) (habilidades_cv : Finset String)
    (tfidf_scores : List (Nat × ℚ)) (vacante : Vacante) :
    score_cumplimiento habilidades_cv vacante =
      (if req_totales vacante = ∅ then 0
       else ((habilidades_cv ∩ req_totales vacante).card : ℚ) /
         ((req_totales vacante).card : ℚ)) ∧
    (procesar_vacante cursos habilidades_cv tfidf_scores vacante).puntaje_match =
      pyRound2 ((score_cumplimiento habilidades_cv vacante * (6 / 10) +
        ((tfidf_scores.lookup vacante.id).getD 0) * (4 / 10)) * 100) := by
  constructor
  · unfold score_cumplimiento
    by_cases hc : (req_totales vacante).card = 0
    · have he : req_totales vacante = ∅ := Finset.card_eq_zero.mp hc
      simp [hc, he]
    · have he : req_totales vacante ≠ ∅ := fun he => hc (by rw [he]; rfl)
      simp [hc, he]
  · rfl

/-- C7: coverage is always between 0 and 1, and equals 1 exactly when
the posting has requirements and none of them is missing. -/
theorem c7_cota_de_cobertura (habilidades_cv : Finset String) (vacante : Vacante) :
    0 ≤ score_cumplimiento habilidades_cv vacante ∧
    score_cumplimiento habilidades_cv vacante ≤ 1 ∧
    (score_cumplimiento habilidades_cv vacante = 1 ↔
      habilidades_faltantes habilidades_cv vacante = ∅ ∧ req_totales vacante ≠ ∅) := by
  unfold score_cumplimiento habilidades_faltantes
  by_cases hc : (req_totales vacante).card = 0
  · rw [Finset.card_eq_zero] at hc
    simp [hc]
  · have hpos : (0 : ℚ) < ((req_totales vacante).card : ℚ) := by
      have : 0 < (req_totales vacante).card := Nat.pos_of_ne_zero hc
      exact_mod_cast this
    have hsub : habilidades_cv ∩ req_totales vacante ⊆ req_totales vacante :=
      Finset.inter_subset_right
    have hle : (habilidades_cv ∩ req_totales vacante).card ≤ (req_totales vacante).card :=
      Finset.card_le_card hsub
    rw [if_pos hc]
    refine ⟨by positivity, ?_, ?_⟩
    · rw [div_le_one hpos]
      exact_mod_cast hle
    · rw [div_eq_one_iff_eq (ne_of_gt hpos)]
      constructor
      · intro hcard
        have hcard2 : (habilidades_cv ∩ req_totales vacante).card = (req_totales vacante).card := by
          exact_mod_cast hcard
        have heq : habilidades_cv ∩ req_totales vacante = req_totales vacante :=
          Finset.eq_of_subset_of_card_le hsub (le_of_eq hcard2.symm)
        have hsub2 : req_totales vacante ⊆ habilidades_cv := by
          rw [← Finset.inter_eq_right]
          exact heq
        refine ⟨Finset.sdiff_eq_empty_iff_subset.mpr hsub2, ?_⟩
        intro he
        exact hc (by rw [he]; rfl)
      · rintro ⟨hdiff, -⟩
        have hsub2 : req_totales vacante ⊆ habilidades_cv :=
          Finset.sdiff_eq_empty_iff_subset.mp hdiff
        have heq : habilidades_cv ∩ req_totales vacante = req_totales vacante :=
          Finset.inter_eq_right.mpr hsub2
        rw [heq]

/-! ## Claim C6: descending stable sort -/

/-- Transitivity of the sort comparator used by `resultados_ordenados`. -/
theorem orden_trans {α : Type} (a b c : ResultadoMatch α)
    (hab : decide (b.puntaje_match ≤ a.puntaje_match) = true)
    (hbc : decide (c.puntaje_match ≤ b.puntaje_match) = true) :
    decide (c.puntaje_match ≤ a.puntaje_match) = true := by
  simp only [decide_eq_true_eq] at *
  exact le_trans hbc hab

/-- Totality of the sort comparator used by `resultados_ordenados`. -/
theorem orden_total {α : Type} (a b : ResultadoMatch α) :
    (decide (b.puntaje_match ≤ a.puntaje_match) ||
      decide (a.puntaje_match ≤ b.puntaje_match)) = true := by
  simp only [Bool.or_eq_true, decide_eq_true_eq]
  exact le_total b.puntaje_match a.puntaje_match

/-- C6: the ranked output is sorted descending on the rounded match
score, and on ties the relative order of the input posting list (the
catalog order, since the result list is built by `List.map` over the
catalog) is preserved: filtering the output at any fixed score value
gives exactly the input entries with that score, in input order. -/
theorem c6_orden_estable (cursos : List Curso) (habilidades_cv : Finset String)
    (tfidf_scores : List (Nat × ℚ)) (vacantes : List Vacante) :
    (resultados_ordenados
        (vacantes.map (procesar_vacante cursos habilidades_cv tfidf_scores))).Pairwise
      (fun a b => b.puntaje_match ≤ a.puntaje_match) ∧
    ∀ q : ℚ,
      (resultados_ordenados
          (vacantes.map (procesar_vacante cursos habilidades_cv tfidf_scores))).filter
        (fun r => decide (r.puntaje_match = q)) =
      (vacantes.map (procesar_vacante cursos habilidades_cv tfidf_scores)).filter
        (fun r => decide (r.puntaje_match = q)) := by
  set entrada := vacantes.map (procesar_vacante cursos habilidades_cv tfidf_scores) with hent
  constructor
  · have h := List.sorted_mergeSort orden_trans orden_total entrada
    exact h.imp (fun hb => of_decide_eq_true hb)
  · intro q
    have hfsub : List.Sublist (entrada.filter (fun r => decide (r.puntaje_match = q))) entrada :=
      List.filter_sublist entrada
    have hpair : (entrada.filter (fun r => decide (r.puntaje_match = q))).Pairwise
        (fun a b => decide (b.puntaje_match ≤ a.puntaje_match) = true) := by
      apply List.pairwise_of_forall_mem_list
      intro a ha b hb
      have hqa : a.puntaje_match = q := of_decide_eq_true (List.mem_filter.mp ha).2
      have hqb : b.puntaje_match = q := of_decide_eq_true (List.mem_filter.mp hb).2
      simp [hqa, hqb]
    have hsub : List.Sublist (entrada.filter (fun r => decide (r.puntaje_match = q)))
        (resultados_ordenados entrada) :=
      List.sublist_mergeSort orden_trans orden_total hpair hfsub
    have hself : (entrada.filter (fun r => decide (r.puntaje_match = q))).filter
        (fun r => decide (r.puntaje_match = q)) =
        entrada.filter (fun r => decide (r.puntaje_match = q)) :=
      List.filter_eq_self.mpr (fun a ha => (List.mem_filter.mp ha).2)
    have hsubf : List.Sublist (entrada.filter (fun r => decide (r.puntaje_match = q)))
        ((resultados_ordenados entrada).filter (fun r => decide (r.puntaje_match = q))) := by
      rw [← hself]
      exact hsub.filter _
    have hperm : List.Perm (resultados_ordenados entrada) entrada :=
      List.mergeSort_perm entrada _
    have hlen : ((resultados_ordenados entrada).filter
        (fun r => decide (r.puntaje_match = q))).length =
        (entrada.filter (fun r => decide (r.puntaje_match = q))).length :=
      (hperm.filter _).length_eq
    exact (hsubf.eq_of_length hlen.symm).symm

/-! ## Claims C3, C4 and C8: error handling of the similarity scorer -/

/-- On an empty posting list the scorer always raises: either the corpus
(the résumé alone) has no vocabulary, or `cosine_similarity` receives a
0-row matrix.  Shared support for the scorer and pipeline claims. -/
theorem calcular_similitud_tfidf_nil {α : Type} (cos : List String → String → ℚ)
    (descripcion : α → String) (ident : α → Nat) (cv_texto : String) :
    ∃ e, calcular_similitud_tfidf cos descripcion ident cv_texto ([] : List α) =
      Except.error e := by
  unfold calcular_similitud_tfidf
  by_cases h : build_vocabulary (cv_texto :: List.map descripcion []) = []
  · exact ⟨_, by rw [if_pos h]⟩
  · exact ⟨_, by rw [if_neg h]; rfl⟩

/-- C3 counterexample: on a corpus with empty vocabulary (empty résumé,
one posting with an empty description) the scorer does not return a 0.0
score for the posting — it raises sklearn's empty-vocabulary error. -/
theorem c3_contraejemplo_vocabulario_vacio :
    calcular_similitud_tfidf (fun _ _ => 0) (fun v => v.descripcion) (fun v => v.id)
      "" [(⟨1, "Analista", "ACME", "", [], []⟩ : Vacante)] =
    Except.error "ValueError: empty vocabulary; perhaps the documents only contain stop words" := rfl

/-- C3 amended: whenever the corpus (résumé plus all posting
descriptions) yields an empty vocabulary, the scorer raises the
empty-vocabulary error instead of returning scores. -/
theorem c3_vocabulario_vacio_lanza_error {α : Type} (cos : List String → String → ℚ)
    (descripcion : α → String) (ident : α → Nat) (cv_texto : String) (vacantes : List α)
    (h : build_vocabulary (cv_texto :: vacantes.map descripcion) = []) :
    calcular_similitud_tfidf cos descripcion ident cv_texto vacantes =
      Except.error "ValueError: empty vocabulary; perhaps the documents only contain stop words" := by
  unfold calcular_similitud_tfidf
  rw [if_pos h]

theorem c3_vocabulario_vacio_lanza_error_witness :
    build_vocabulary ("" :: ([(⟨1, "Analista", "ACME", "", [], []⟩ : Vacante)].map
      (fun v => v.descripcion))) = [] ∧
    calcular_similitud_tfidf (fun _ _ => 0) (fun v => v.descripcion) (fun v => v.id)
      "" [(⟨1, "Analista", "ACME", "", [], []⟩ : Vacante)] =
    Except.error "ValueError: empty vocabulary; perhaps the documents only contain stop words" :=
  ⟨by decide, c3_vocabulario_vacio_lanza_error (fun _ _ => 0) (fun v => v.descripcion)
    (fun v => v.id) "" [(⟨1, "Analista", "ACME", "", [], []⟩ : Vacante)] (by decide)⟩

/-- C4 counterexample: called with an empty posting sequence (and a
résumé with real words) the scorer does not return an empty mapping — it
invokes the vectorizer and `cosine_similarity` raises on the 0-row
posting matrix. -/
theorem c4_contraejemplo_sin_vacantes :
    calcular_similitud_tfidf (fun _ _ => 0) (fun v : Vacante => v.descripcion) (fun v => v.id)
      "hola programadores" [] =
    Except.error "ValueError: Found array with 0 sample(s) while a minimum of 1 is required" := rfl

/-- C4 amended: there is no empty-postings special case in the scorer:
with an empty posting sequence it always raises (the empty-vocabulary
error when the résumé has no tokens, otherwise the 0-sample cosine
error).  The empty-catalog case is instead guarded by the caller
`encontrar_trabajos_compatibles`, which returns before the scorer. -/
theorem c4_sin_caso_especial_vacantes_vacias {α : Type} (cos : List String → String → ℚ)
    (descripcion : α → String) (ident : α → Nat) (cv_texto : String) :
    ∃ e, calcular_similitud_tfidf cos descripcion ident cv_texto ([] : List α) =
      Except.error e :=
  calcular_similitud_tfidf_nil cos descripcion ident cv_texto

/-- C8 counterexample: the Streamlit `Analizar y Recomendar` handler has
no empty-catalog guard: with a non-empty résumé and an empty posting
catalog it propagates the scorer's error instead of returning an empty
result list. -/
theorem c8_contraejemplo_streamlit :
    analizar_y_recomendar (fun _ _ => 0)
      "Tengo experiencia en Python y trabajo en equipo" [] [] =
    Except.error "ValueError: Found array with 0 sample(s) while a minimum of 1 is required" := rfl

/-- C8 amended: for every non-empty résumé text and course catalog, the
API ranker `encontrar_trabajos_compatibles` returns the empty result
list on an empty posting catalog (its guard runs before the scorer);
the Streamlit handler, which lacks that guard, instead fails inside the
similarity scorer. -/
theorem c8_catalogo_vacio (cos : List String → String → ℚ) (cv_texto : String)
    (cursos : List Curso) (h : pyStrip cv_texto ≠ "") :
    encontrar_trabajos_compatibles cos cv_texto [] cursos = Except.ok [] ∧
    ∃ e, analizar_y_recomendar cos cv_texto [] cursos = Except.error e := by
  constructor
  · unfold encontrar_trabajos_compatibles
    rw [if_neg h, if_pos rfl]
  · unfold analizar_y_recomendar
    rw [if_neg h]
    obtain ⟨e, he⟩ := calcular_similitud_tfidf_nil cos (fun v : Vacante => v.descripcion)
      (fun v => v.id) cv_texto
    exact ⟨e, by rw [he]⟩

theorem c8_catalogo_vacio_witness :
    pyStrip "Tengo experiencia en Python" ≠ "" ∧
    encontrar_trabajos_compatibles (fun _ _ => 0) "Tengo experiencia en Python" [] [] =
      Except.ok [] :=
  ⟨by decide, (c8_catalogo_vacio (fun _ _ => 0) "Tengo experiencia en Python" [] (by decide)).1⟩

/-! ## Claim C9: `verificar_compatibilidad` and the vacuous-requirement default -/

/-- C9: the profile-page compatibility check returns 100 whenever the
offer's required-skill list is empty — the opposite of the zero-coverage
default `score_cumplimiento` applies to postings with no stated
requirements — and on a non-empty requirement list it returns
`int(|matched| / |required| * 100)`. -/
theorem c9_compatibilidad_vacua_100 (perfil : PerfilCandidato) (oferta : OfertaDeTrabajo) :
    (verificar_compatibilidad perfil oferta).1 =
      (if oferta.habilidades_requeridas = [] then 100
       else
        ⌊(((get_habilidades_normalizadas perfil).toFinset ∩
            ((oferta.habilidades_requeridas.map pyLower).toFinset)).card : ℚ) /
          (oferta.habilidades_requeridas.length : ℚ) * 100⌋) ∧
    ∀ (habilidades_cv : Finset String) (idn : Nat) (t e d : String),
      score_cumplimiento habilidades_cv ⟨idn, t, e, d, [], []⟩ = 0 := by
  constructor
  · unfold verificar_compatibilidad
    by_cases hof : oferta.habilidades_requeridas = []
    · have hmap : oferta.habilidades_requeridas.map pyLower = [] := by rw [hof]; rfl
      rw [if_pos hof]
      simp only [hmap, ne_eq, not_true_eq_false, if_false, ite_false]
      norm_num
    · have hmap : oferta.habilidades_requeridas.map pyLower ≠ [] := by
        intro hmape
        exact hof (List.map_eq_nil_iff.mp hmape)
      rw [if_neg hof]
      simp only [ne_eq, hmap, not_false_eq_true, if_true, ite_true, List.length_map]
  · intro habilidades_cv idn t e d
    unfold score_cumplimiento req_totales
    simp
